import Mathlib

/-
Verification of the mb-qemu-labx repository against its specification.

Part 1 embeds the FIFO register file of the LabX legacy ethernet model
(src/hw/labx_ethernet.c) as a pure state-transition system: the device
struct becomes a Lean structure, the MMIO read/write handlers become
state-passing functions, uint32 arithmetic is Nat arithmetic with explicit
reduction mod 2^32 where the C code can wrap, and the two qemu_irq lines
touched by this file become Bool fields.

Part 2 models the FDT device-instantiation framework.  Only the header
src/hw/fdt_generic.h is present in the sources, so the operations it
declares (registration tables, dispatch, the opaque store and the
dependency scheduler) are modelled from the specification's words, each
such definition carrying a doc comment that says so.
-/

/-! ## Part 1: labx_ethernet FIFO register file (from src/hw/labx_ethernet.c) -/

def FIFO_RAM_BYTES : Nat := 2048

def LENGTH_FIFO_WORDS : Nat := 16

def FIFO_INT_STATUS_ADDRESS : Nat := 0x0

def FIFO_INT_ENABLE_ADDRESS : Nat := 0x1

def FIFO_INT_RPURE : Nat := 0x80000000

def FIFO_INT_RPORE : Nat := 0x40000000

def FIFO_INT_RPUE : Nat := 0x20000000

def FIFO_INT_TPOE : Nat := 0x10000000

def FIFO_INT_TC : Nat := 0x08000000

def FIFO_INT_RC : Nat := 0x04000000

def FIFO_INT_MASK : Nat := 0xFC000000

def FIFO_TX_RESET_ADDRESS : Nat := 0x2

def FIFO_RESET_MAGIC : Nat := 0xA5

def FIFO_TX_VACANCY_ADDRESS : Nat := 0x3

def FIFO_TX_DATA_ADDRESS : Nat := 0x4

def FIFO_TX_LENGTH_ADDRESS : Nat := 0x5

def FIFO_RX_RESET_ADDRESS : Nat := 0x6

def FIFO_RX_OCCUPANCY_ADDRESS : Nat := 0x7

def FIFO_RX_DATA_ADDRESS : Nat := 0x8

def FIFO_RX_LENGTH_ADDRESS : Nat := 0x9

/-- Reduce to a 32-bit unsigned value, as storage into a uint32 does in C. -/
def u32 (x : Nat) : Nat := x % 4294967296

/-- The uint32 subtraction a - b (two's-complement wraparound). -/
def sub32 (a b : Nat) : Nat := (4294967296 + a % 4294967296 - b % 4294967296) % 4294967296

/-- Byte swap of a 32-bit word, as be32_to_cpu performs on a little-endian
host. -/
def be32_to_cpu (v : Nat) : Nat :=
  ((v &&& 0xFF) <<< 24) ||| ((v &&& 0xFF00) <<< 8) |||
  ((v >>> 8) &&& 0xFF00) ||| ((v >>> 24) &&& 0xFF)

/-- State of struct labx_ethernet that the ethernet/FIFO register handlers
touch.  Register files and RAM buffers are lists of 32-bit words; the
hostIrq and fifoIrq qemu_irq lines are Bool (true = raised); qemu_send_packet
is modelled by appending the packet words and its byte length to a log. -/
structure labx_ethernet where
  hostRegs : List Nat
  fifoRegs : List Nat
  txBuffer : List Nat
  txPushIndex : Nat
  txPopIndex : Nat
  txLengthBuffer : List Nat
  txLengthPushIndex : Nat
  txLengthPopIndex : Nat
  rxBuffer : List Nat
  rxPushIndex : Nat
  rxPopIndex : Nat
  rxLengthBuffer : List Nat
  rxLengthPushIndex : Nat
  rxLengthPopIndex : Nat
  fifoIrq : Bool
  sentPackets : List (List Nat × Nat)
deriving Repr, DecidableEq

/-- update_fifo_irq: raise fifoIrq iff (fifoRegs[FIFO_INT_STATUS_ADDRESS] &
fifoRegs[FIFO_INT_ENABLE_ADDRESS]) != 0, else lower it. -/
def update_fifo_irq (p : labx_ethernet) : labx_ethernet :=
  { p with fifoIrq :=
      ((p.fifoRegs.getD FIFO_INT_STATUS_ADDRESS 0) &&&
       (p.fifoRegs.getD FIFO_INT_ENABLE_ADDRESS 0)) != 0 }

/-- The inner for loop of send_packet: pop n words from txBuffer starting at
txPopIndex (each converted by be32_to_cpu), advancing txPopIndex mod
FIFO_RAM_BYTES/4.  Returns the packet words and the updated state. -/
def send_packet_pop : Nat → labx_ethernet → List Nat × labx_ethernet
  | 0, p => ([], p)
  | m + 1, p =>
    let w := be32_to_cpu (p.txBuffer.getD p.txPopIndex 0)
    let r := send_packet_pop m { p with txPopIndex := (p.txPopIndex + 1) % (FIFO_RAM_BYTES / 4) }
    (w :: r.1, r.2)

/-- The while loop of send_packet, with explicit fuel.  The loop runs while
txLengthPopIndex != txLengthPushIndex, advancing txLengthPopIndex mod
LENGTH_FIFO_WORDS each iteration, so on device states (both indices below
LENGTH_FIFO_WORDS) it iterates at most LENGTH_FIFO_WORDS - 1 times and the
fuel of LENGTH_FIFO_WORDS used below is never exhausted. -/
def send_packet_loop : Nat → labx_ethernet → labx_ethernet
  | 0, p => p
  | fuel + 1, p =>
    if p.txLengthPopIndex != p.txLengthPushIndex then
      let length := p.txLengthBuffer.getD p.txLengthPopIndex 0
      let p1 := { p with txLengthPopIndex := (p.txLengthPopIndex + 1) % LENGTH_FIFO_WORDS }
      let r := send_packet_pop ((length + 3) / 4) p1
      send_packet_loop fuel { r.2 with sentPackets := r.2.sentPackets ++ [(r.1, length)] }
    else p

/-- send_packet: drain the tx length FIFO sending one packet per queued
length, then set FIFO_INT_TC in the interrupt status register and call
update_fifo_irq. -/
def send_packet (p : labx_ethernet) : labx_ethernet :=
  let p1 := send_packet_loop LENGTH_FIFO_WORDS p
  update_fifo_irq
    { p1 with fifoRegs := (p1.fifoRegs.set FIFO_INT_STATUS_ADDRESS
        ((p1.fifoRegs.getD FIFO_INT_STATUS_ADDRESS 0) ||| FIFO_INT_TC)) }

/-- fifo_regs_readl: returns the read value and the updated device state.
The register index is (addr >> 2) & 0xF, exactly as in the source switch. -/
def fifo_regs_readl (p : labx_ethernet) (addr : Nat) : Nat × labx_ethernet :=
  match (addr >>> 2) &&& 0xF with
  | 0 => (p.fifoRegs.getD 0 0, p)
  | 1 => (p.fifoRegs.getD 1 0, p)
  | 2 => (p.fifoRegs.getD 2 0, p)
  | 3 =>
    let r0 := sub32 (sub32 p.txPopIndex p.txPushIndex) 1
    let r1 := if 2147483648 ≤ r0 then u32 (r0 + FIFO_RAM_BYTES / 4) else r0
    let r2 := if (p.txLengthPushIndex + 1) % LENGTH_FIFO_WORDS = p.txLengthPopIndex then 0 else r1
    (r2, p)
  | 4 => (p.fifoRegs.getD 4 0, p)
  | 5 => (p.fifoRegs.getD 5 0, p)
  | 6 => (p.fifoRegs.getD 6 0, p)
  | 7 =>
    let r0 := sub32 p.rxPushIndex p.rxPopIndex
    let r1 := if 2147483648 ≤ r0 then u32 (r0 + FIFO_RAM_BYTES / 4) else r0
    (r1, p)
  | 8 =>
    let retval := p.rxBuffer.getD p.rxPopIndex 0
    if p.rxPopIndex != p.rxPushIndex then
      (retval, { p with rxPopIndex := (p.rxPopIndex + 1) % (FIFO_RAM_BYTES / 4) })
    else
      (retval, update_fifo_irq
        { p with fifoRegs := (p.fifoRegs.set FIFO_INT_STATUS_ADDRESS
            ((p.fifoRegs.getD FIFO_INT_STATUS_ADDRESS 0) ||| FIFO_INT_RPURE)) })
  | 9 =>
    let retval := p.rxLengthBuffer.getD p.rxLengthPopIndex 0
    if p.rxLengthPopIndex != p.rxLengthPushIndex then
      (retval, { p with rxLengthPopIndex := (p.rxLengthPopIndex + 1) % LENGTH_FIFO_WORDS })
    else
      (retval, update_fifo_irq
        { p with fifoRegs := (p.fifoRegs.set FIFO_INT_STATUS_ADDRESS
            ((p.fifoRegs.getD FIFO_INT_STATUS_ADDRESS 0) ||| FIFO_INT_RPURE)) })
  | _ => (0, p)

/-- fifo_regs_writel: the value parameter is a uint32, so it is reduced mod
2^32 at entry; the register index is (addr >> 2) & 0xF. -/
def fifo_regs_writel (p : labx_ethernet) (addr value0 : Nat) : labx_ethernet :=
  let value := value0 % 4294967296
  match (addr >>> 2) &&& 0xF with
  | 0 =>
    update_fifo_irq
      { p with hostRegs := (p.hostRegs.set FIFO_INT_ENABLE_ADDRESS
          ((p.hostRegs.getD FIFO_INT_ENABLE_ADDRESS 0) &&& (4294967295 ^^^ (value &&& FIFO_INT_MASK)))) }
  | 1 =>
    update_fifo_irq
      { p with fifoRegs := p.fifoRegs.set FIFO_INT_ENABLE_ADDRESS (value &&& FIFO_INT_MASK) }
  | 2 =>
    if value = FIFO_RESET_MAGIC then
      { p with txPushIndex := 0, txPopIndex := 0, txLengthPushIndex := 0, txLengthPopIndex := 0 }
    else p
  | 3 => p
  | 4 =>
    if ((p.txLengthPushIndex + 1) % LENGTH_FIFO_WORDS = p.txLengthPopIndex) ∨
       ((p.txPushIndex + 1) % (FIFO_RAM_BYTES / 4) = p.txPopIndex) then
      update_fifo_irq
        { p with fifoRegs := (p.fifoRegs.set FIFO_INT_STATUS_ADDRESS
            ((p.fifoRegs.getD FIFO_INT_STATUS_ADDRESS 0) ||| FIFO_INT_TPOE)) }
    else
      { p with txBuffer := p.txBuffer.set p.txPushIndex value,
               txPushIndex := (p.txPushIndex + 1) % (FIFO_RAM_BYTES / 4) }
  | 5 =>
    if (p.txLengthPushIndex + 1) % LENGTH_FIFO_WORDS = p.txLengthPopIndex then
      update_fifo_irq
        { p with fifoRegs := (p.fifoRegs.set FIFO_INT_STATUS_ADDRESS
            ((p.fifoRegs.getD FIFO_INT_STATUS_ADDRESS 0) ||| FIFO_INT_TPOE)) }
    else
      send_packet
        { p with txLengthBuffer := p.txLengthBuffer.set p.txLengthPushIndex value,
                 txLengthPushIndex := (p.txLengthPushIndex + 1) % LENGTH_FIFO_WORDS }
  | 6 =>
    if value = FIFO_RESET_MAGIC then
      { p with rxPushIndex := 0, rxPopIndex := 0, rxLengthPushIndex := 0, rxLengthPopIndex := 0 }
    else p
  | _ => p

/-- Device state right after labx_ethernet_init: the qdev-allocated struct is
zero-filled (registers, indices, irq lines), while the four qemu_malloc
buffers are uninitialized, so their contents are parameters. -/
def labx_ethernet_init (txB txLB rxB rxLB : List Nat) : labx_ethernet :=
  { hostRegs := List.replicate 16 0
    fifoRegs := List.replicate 16 0
    txBuffer := txB
    txPushIndex := 0
    txPopIndex := 0
    txLengthBuffer := txLB
    txLengthPushIndex := 0
    txLengthPopIndex := 0
    rxBuffer := rxB
    rxPushIndex := 0
    rxPopIndex := 0
    rxLengthBuffer := rxLB
    rxLengthPushIndex := 0
    rxLengthPopIndex := 0
    fifoIrq := false
    sentPackets := [] }

/-- One guest access to the FIFO register window: a readl or a writel. -/
inductive FifoOp where
  | read (addr : Nat)
  | write (addr value : Nat)

/-- Apply one FIFO register access to the device state. -/
def applyFifoOp (p : labx_ethernet) : FifoOp → labx_ethernet
  | .read a => (fifo_regs_readl p a).2
  | .write a v => fifo_regs_writel p a v

/-- The fifo interrupt line matches the conjunction of interrupt status and
enable registers: asserted iff (fifoRegs[0] & fifoRegs[1]) is non-zero. -/
def fifoIrqMatches (p : labx_ethernet) : Prop :=
  p.fifoIrq = (((p.fifoRegs.getD FIFO_INT_STATUS_ADDRESS 0) &&&
                (p.fifoRegs.getD FIFO_INT_ENABLE_ADDRESS 0)) != 0)

lemma fifoIrqMatches_update_fifo_irq (p : labx_ethernet) : fifoIrqMatches (update_fifo_irq p) := rfl

lemma fifoIrqMatches_send_packet (p : labx_ethernet) : fifoIrqMatches (send_packet p) :=
  fifoIrqMatches_update_fifo_irq _

lemma applyFifoOp_fifoIrqMatches (p : labx_ethernet) (op : FifoOp) (h : fifoIrqMatches p) :
    fifoIrqMatches (applyFifoOp p op) := by
  cases op with
  | read a =>
    simp only [applyFifoOp, fifo_regs_readl]
    split <;>
      first
        | exact h
        | exact fifoIrqMatches_update_fifo_irq _
        | (split <;> first | exact h | exact fifoIrqMatches_update_fifo_irq _)
  | write a v =>
    simp only [applyFifoOp, fifo_regs_writel]
    split <;>
      first
        | exact h
        | exact fifoIrqMatches_update_fifo_irq _
        | (split <;> first | exact h | exact fifoIrqMatches_update_fifo_irq _)

lemma fifoIrqMatches_init (txB txLB rxB rxLB : List Nat) :
    fifoIrqMatches (labx_ethernet_init txB txLB rxB rxLB) := by
  unfold fifoIrqMatches labx_ethernet_init
  norm_num

lemma foldl_fifoIrqMatches (ops : List FifoOp) (p : labx_ethernet) (h : fifoIrqMatches p) :
    fifoIrqMatches (ops.foldl applyFifoOp p) := by
  induction ops generalizing p with
  | nil => exact h
  | cons op rest ih => exact ih _ (applyFifoOp_fifoIrqMatches p op h)

/-- C8: for the labx_ethernet device, after every sequence of FIFO register
reads and writes (including the send_packet a tx-length write may trigger)
starting from the freshly initialized device, the fifo interrupt line is
asserted if and only if (fifoRegs[FIFO_INT_STATUS_ADDRESS] &
fifoRegs[FIFO_INT_ENABLE_ADDRESS]) is non-zero: every operation that changes
either register re-establishes the correspondence via update_fifo_irq. -/
theorem c8_fifo_irq_matches_status_and_enable (ops : List FifoOp) (txB txLB rxB rxLB : List Nat) :
    fifoIrqMatches (ops.foldl applyFifoOp (labx_ethernet_init txB txLB rxB rxLB)) :=
  foldl_fifoIrqMatches ops _ (fifoIrqMatches_init txB txLB rxB rxLB)

/-- C9: a write of any value to the FIFO interrupt-status register (fifo
register offset 0, byte address 0) leaves every element of fifoRegs
unchanged (so no FIFO interrupt status bit is cleared); instead it updates
hostRegs[1] to hostRegs[1] & ~(value & 0xFC000000) and recomputes the fifo
interrupt line from the (unchanged) status and enable registers. -/
theorem c9_int_status_write_clears_hostRegs (p : labx_ethernet) (value : Nat) :
    (fifo_regs_writel p 0 value).fifoRegs = p.fifoRegs ∧
    (fifo_regs_writel p 0 value).hostRegs =
      p.hostRegs.set 1 ((p.hostRegs.getD 1 0) &&&
        (4294967295 ^^^ ((value % 4294967296) &&& 0xFC000000))) ∧
    (fifo_regs_writel p 0 value).fifoIrq =
      (((p.fifoRegs.getD 0 0) &&& (p.fifoRegs.getD 1 0)) != 0) :=
  ⟨rfl, rfl, rfl⟩

/-- C10: a write to the FIFO TX reset register (fifo register offset 2, byte
address 8) resets txPushIndex, txPopIndex, txLengthPushIndex and
txLengthPopIndex to zero when the value is the reset magic 0xA5, and leaves
the whole device state unchanged otherwise; in either case the rx indices
and all fifoRegs entries are unchanged. -/
theorem c10_tx_reset_write (p : labx_ethernet) (value : Nat) :
    (fifo_regs_writel p 8 value =
      if value % 4294967296 = 0xA5 then
        { p with txPushIndex := 0, txPopIndex := 0, txLengthPushIndex := 0, txLengthPopIndex := 0 }
      else p) ∧
    (fifo_regs_writel p 8 value).fifoRegs = p.fifoRegs ∧
    (fifo_regs_writel p 8 value).rxPushIndex = p.rxPushIndex ∧
    (fifo_regs_writel p 8 value).rxPopIndex = p.rxPopIndex ∧
    (fifo_regs_writel p 8 value).rxLengthPushIndex = p.rxLengthPushIndex ∧
    (fifo_regs_writel p 8 value).rxLengthPopIndex = p.rxLengthPopIndex := by
  have hmain : fifo_regs_writel p 8 value =
      if value % 4294967296 = 0xA5 then
        { p with txPushIndex := 0, txPopIndex := 0, txLengthPushIndex := 0, txLengthPopIndex := 0 }
      else p := rfl
  refine ⟨hmain, ?_, ?_, ?_, ?_, ?_⟩ <;> rw [hmain] <;> split <;> rfl

/-! ## Part 2: FDT device-instantiation framework

Only the header src/hw/fdt_generic.h of this component is in the sources:
the implementation file that defines the registration tables, the dispatch
functions, the opaque store and the dependency scheduler is missing, so the
definitions below are modelled from the specification's words (and from the
contracts stated in the header's comments), as their doc comments record. -/

/-- Per-device opaque entry, mirroring struct FDTDevOpaque of
fdt_generic.h: a node path plus an arbitrary (type-erased, here Nat)
per-node value.  The C field named after that value is called opaqueVal
here. -/
structure FDTDevOpaque where
  node_path : String
  opaqueVal : Nat
deriving DecidableEq, Repr

/-- Machine context, mirroring struct FDTMachineInfo of fdt_generic.h: the
fdt blob handle, the irq descriptor table, the per-device opaque store, the
base address of the root bus, and the recheck queue cq of suspended node
paths (the spec's wait_queue). -/
structure FDTMachineInfo where
  fdt : Nat
  irq_base : List Nat
  dev_opaques : List FDTDevOpaque
  sysbus_base : Nat
  cq : List String
deriving DecidableEq, Repr

/-- Modelled from the spec: fdt_generic.c is missing, so has_opaque is the
spec's existence check on the opaque store, keyed by node path; it does not
suspend and does not mutate the context. -/
def fdt_init_has_opaque (fdti : FDTMachineInfo) (node_path : String) : Bool :=
  fdti.dev_opaques.any (fun e => e.node_path == node_path)

/-- Modelled from the spec: fdt_generic.c is missing, so get_opaque returns
the stored value for the path or absence, the normal signal that a
dependent must wait. -/
def fdt_init_get_opaque (fdti : FDTMachineInfo) (node_path : String) : Option Nat :=
  (fdti.dev_opaques.find? (fun e => e.node_path == node_path)).map (fun e => e.opaqueVal)

/-- Modelled from the spec: fdt_generic.c is missing, so set_opaque records
the value for the path; publication is write-once, a second call for a path
that already has a value is rejected (store left unchanged) and flagged by
the returned Bool (true = DuplicatePublish). -/
def fdt_init_set_opaque (fdti : FDTMachineInfo) (node_path : String) (v : Nat) :
    FDTMachineInfo × Bool :=
  if fdt_init_has_opaque fdti node_path then (fdti, true)
  else ({ fdti with dev_opaques := ⟨node_path, v⟩ :: fdti.dev_opaques }, false)

/-- Result of one initializer invocation (spec section 4.3). -/
inductive InitResult where
  | success
  | deferred
  | failure
deriving DecidableEq, Repr

/-- Result of a dispatch attempt: no binding matched, or the matched
binding's initializer was invoked and returned r. -/
inductive DispatchResult where
  | notFound
  | invoked (r : InitResult)
deriving DecidableEq, Repr

/-- Modelled from the spec: a registered binding of the compatibility or
instance table; the initializer receives the node path, the machine context
and the binding's registration-time value (C's opaque pointer, here the
field opaqueVal) and returns its result plus the possibly-updated context. -/
structure Binding where
  key : String
  fn : String → FDTMachineInfo → Nat → InitResult × FDTMachineInfo
  opaqueVal : Nat

/-- Modelled from the spec: fdt_generic.c is missing, so registration
appends a binding to the compatibility table (append-only, no duplicate
check). -/
def add_to_compat_table (tbl : List Binding) (b : Binding) : List Binding := tbl ++ [b]

/-- Modelled from the spec: fdt_generic.c is missing, so registration
appends a binding to the instance-name table (append-only, no duplicate
check). -/
def add_to_inst_bind_table (tbl : List Binding) (b : Binding) : List Binding := tbl ++ [b]

/-- Modelled from the spec: lookup returns the first registered binding
whose key equals the argument, or none.  It is a pure function of the
table, so it is deterministic across any number and order of lookups. -/
def lookup_binding (tbl : List Binding) (key : String) : Option Binding :=
  tbl.find? (fun b => b.key == key)

/-- A compatibility table built by registering the given bindings in order
into an initially empty table. -/
def registerCompatAll (bs : List Binding) : List Binding :=
  bs.foldl add_to_compat_table []

/-- An instance-name table built by registering the given bindings in order
into an initially empty table. -/
def registerInstAll (bs : List Binding) : List Binding :=
  bs.foldl add_to_inst_bind_table []

/-- Modelled from the spec and the header contract of fdt_init_compat:
look up the compatibility string; on a match invoke the bound initializer
with (node_path, context, registered value) and return its result
unchanged, on no match return notFound with the context untouched. -/
def fdt_init_compat (tbl : List Binding) (node_path : String) (fdti : FDTMachineInfo)
    (compat : String) : DispatchResult × FDTMachineInfo :=
  match lookup_binding tbl compat with
  | none => (.notFound, fdti)
  | some b =>
    let r := b.fn node_path fdti b.opaqueVal
    (.invoked r.1, r.2)

/-- Modelled from the spec: identical lookup/invoke contract as
fdt_init_compat, against the instance-name table. -/
def fdt_init_inst_bind (tbl : List Binding) (node_path : String) (fdti : FDTMachineInfo)
    (node_name : String) : DispatchResult × FDTMachineInfo :=
  match lookup_binding tbl node_name with
  | none => (.notFound, fdti)
  | some b =>
    let r := b.fn node_path fdti b.opaqueVal
    (.invoked r.1, r.2)

/-- Modelled from the spec: a force-table binding; its initializer is
invoked unconditionally once per machine-instantiation pass with the
context and the registration-time value, and returns an optional failure
code (none = success) plus the possibly-updated context. -/
structure ForceBinding where
  fn : FDTMachineInfo → Nat → Option Nat × FDTMachineInfo
  opaqueVal : Nat

/-- Modelled from the spec: fdt_generic.c is missing, so registration
appends a binding to the force table (append-only). -/
def add_to_force_table (tbl : List ForceBinding) (b : ForceBinding) : List ForceBinding :=
  tbl ++ [b]

/-- A force table built by registering the given bindings in order into an
initially empty table. -/
def registerForceAll (bs : List ForceBinding) : List ForceBinding :=
  bs.foldl add_to_force_table []

/-- Modelled from the spec and the header contract of fdt_force_bind_all:
invoke every force-table entry in registration order regardless of document
content, continue past failures, and report the first failure (none if all
succeeded).  The third component logs the invoked entries in invocation
order. -/
def fdt_force_bind_all : List ForceBinding → FDTMachineInfo →
    Option Nat × FDTMachineInfo × List ForceBinding
  | [], fdti => (none, fdti, [])
  | b :: rest, fdti =>
    let r := b.fn fdti b.opaqueVal
    let rr := fdt_force_bind_all rest r.2
    ((match r.1 with | some e => some e | none => rr.1), rr.2.1, b :: rr.2.2)

/-- The per-entry results of running the force-table initializers in
registration order, threading the context; used to state which failure
fdt_force_bind_all reports. -/
def forceResults : List ForceBinding → FDTMachineInfo → List (Option Nat)
  | [], _ => []
  | b :: rest, fdti =>
    let r := b.fn fdti b.opaqueVal
    r.1 :: forceResults rest r.2

/-- State of the global fdt_mutex of the missing fdt_generic.c, whose
locking discipline the header comment of fdt_init_new_fdti documents. -/
inductive MutexState where
  | locked
  | unlocked
deriving DecidableEq, Repr

/-- Modelled from the spec and from the header comment of
fdt_init_new_fdti (fdt_generic.h): allocates and zero-initializes the
context around the given fdt blob handle — the caller is responsible for
setting irq_base — and, as the header states, the mutex fdt_mutex is
locked on return. -/
def fdt_init_new_fdti (fdt : Nat) (m : MutexState) : FDTMachineInfo × MutexState :=
  (⟨fdt, [], [], 0, []⟩, MutexState.locked)

/-- Modelled from the spec (section 4.4): a document node as the scheduler
sees it.  Its initializer yields (re-enqueues) while its dependency dep is
absent from the opaque store, and once the dependency is present (or if it
has none) it publishes its own value under its path and reports success. -/
structure FDTNode where
  path : String
  dep : Option String
  value : Nat
deriving DecidableEq, Repr

/-- Whether the node's initializer can complete now: true when it has no
dependency or its dependency's opaque entry exists. -/
def nodeReady (fdti : FDTMachineInfo) (n : FDTNode) : Bool :=
  match n.dep with
  | none => true
  | some q => fdt_init_has_opaque fdti q

/-- A succeeding node publishes its value to the opaque store under its own
path (spec section 4.3: Success is expected to have called set_opaque). -/
def publishNode (fdti : FDTMachineInfo) (n : FDTNode) : FDTMachineInfo :=
  ( fdt_init_set_opaque fdti n.path n.value).1

/-- Outcome of one full scheduler pass: the updated context, the nodes
still pending, and the number of newly-succeeded nodes (which equals the
number of new opaque publications, since each success publishes once). -/
structure PassResult where
  fdti : FDTMachineInfo
  pending : List FDTNode
  newCount : Nat
deriving Repr

/-- Modelled from the spec (section 4.4): one full pass over the
not-yet-succeeded nodes in order.  A ready node runs to success and
publishes (waking the parked nodes, which are re-attempted on the next
pass and, if they come later in the list, already within this one); a
node that is not ready yields and stays pending. -/
def schedulerPass : List FDTNode → FDTMachineInfo → PassResult
  | [], fdti => ⟨fdti, [], 0⟩
  | n :: rest, fdti =>
    if nodeReady fdti n then
      ⟨(schedulerPass rest (publishNode fdti n)).fdti,
       (schedulerPass rest (publishNode fdti n)).pending,
       (schedulerPass rest (publishNode fdti n)).newCount + 1⟩
    else
      ⟨(schedulerPass rest fdti).fdti,
       n :: (schedulerPass rest fdti).pending,
       (schedulerPass rest fdti).newCount⟩

/-- Terminal outcome of the fixed-point driving procedure: global success
with the final context, or an unresolved-dependency failure naming the
still-pending node paths. -/
inductive DriveResult where
  | success (fdti : FDTMachineInfo)
  | unresolvedDependency (pendingPaths : List String)
deriving DecidableEq, Repr

lemma schedulerPass_length (l : List FDTNode) (fdti : FDTMachineInfo) :
    (schedulerPass l fdti).pending.length + (schedulerPass l fdti).newCount = l.length := by
  induction l generalizing fdti with
  | nil => simp [schedulerPass]
  | cons n rest ih =>
    simp only [schedulerPass]
    split
    · have h1 := ih (publishNode fdti n)
      simp only [List.length_cons]
      omega
    · have h1 := ih fdti
      simp only [List.length_cons]
      omega

/-- Modelled from the spec (section 4.4): the fixed-point driving
procedure.  It repeats full passes until every node has succeeded (global
success) or a full pass produces zero newly-succeeded nodes and zero new
opaque publications (global stall), which is reported as an
unresolved-dependency failure naming the still-pending node paths.  The
definition is total: each non-stalling pass strictly shrinks the pending
list, so the procedure never loops forever. -/
def drive : List FDTNode → FDTMachineInfo → DriveResult
  | [], fdti => .success fdti
  | n :: rest, fdti =>
    if h : (schedulerPass (n :: rest) fdti).newCount = 0 then
      .unresolvedDependency ((schedulerPass (n :: rest) fdti).pending.map FDTNode.path)
    else
      drive (schedulerPass (n :: rest) fdti).pending (schedulerPass (n :: rest) fdti).fdti
termination_by l _ => l.length
decreasing_by
  have h1 := schedulerPass_length (n :: rest) fdti
  simp only [List.length_cons] at h1 ⊢
  omega

lemma drive_nil (fdti : FDTMachineInfo) : drive [] fdti = .success fdti := by
  simp [drive]

lemma drive_stall (n : FDTNode) (rest : List FDTNode) (fdti : FDTMachineInfo)
    (h : (schedulerPass (n :: rest) fdti).newCount = 0) :
    drive (n :: rest) fdti =
      .unresolvedDependency ((schedulerPass (n :: rest) fdti).pending.map FDTNode.path) := by
  rw [drive]
  simp [h]

lemma drive_step (n : FDTNode) (rest : List FDTNode) (fdti : FDTMachineInfo)
    (h : (schedulerPass (n :: rest) fdti).newCount ≠ 0) :
    drive (n :: rest) fdti =
      drive (schedulerPass (n :: rest) fdti).pending (schedulerPass (n :: rest) fdti).fdti := by
  rw [drive]
  simp [h]

lemma foldl_snoc {α : Type} (bs acc : List α) :
    bs.foldl (fun t b => t ++ [b]) acc = acc ++ bs := by
  induction bs generalizing acc with
  | nil => simp
  | cons b rest ih => simp [ih]

lemma registerCompatAll_eq (bs : List Binding) : registerCompatAll bs = bs := by
  show bs.foldl (fun t b => t ++ [b]) [] = bs
  rw [foldl_snoc]
  simp

lemma registerInstAll_eq (bs : List Binding) : registerInstAll bs = bs := by
  show bs.foldl (fun t b => t ++ [b]) [] = bs
  rw [foldl_snoc]
  simp

lemma registerForceAll_eq (bs : List ForceBinding) : registerForceAll bs = bs := by
  show bs.foldl (fun t b => t ++ [b]) [] = bs
  rw [foldl_snoc]
  simp

lemma find?_first_match (pre post : List Binding) (b : Binding) (k : String)
    (hb : b.key = k) (hpre : ∀ x ∈ pre, x.key ≠ k) :
    (pre ++ b :: post).find? (fun x => x.key == k) = some b := by
  induction pre with
  | nil =>
    rw [List.nil_append, List.find?_cons_of_pos]
    simp [hb]
  | cons a rest ih =>
    rw [List.cons_append, List.find?_cons_of_neg]
    · exact ih (fun x hx => hpre x (List.mem_cons_of_mem a hx))
    · simp [hpre a (List.mem_cons_self a rest)]

/-- C1: for every pair of nodes X and Y whose initializers each yield
waiting on the other's opaque entry (a dependency cycle, so neither entry
is ever published), the fixed-point driving procedure starting from a
fresh machine context terminates (drive is a total function) and reports an
unresolved-dependency failure naming both node paths. -/
theorem c1_cycle_reports_unresolved_dependency (px py : String) (vx vy : Nat)
    (fdt : Nat) (m : MutexState) :
    drive [⟨px, some py, vx⟩, ⟨py, some px, vy⟩] (fdt_init_new_fdti fdt m).1 =
      DriveResult.unresolvedDependency [px, py] := by
  have hpass : schedulerPass [⟨px, some py, vx⟩, ⟨py, some px, vy⟩] (fdt_init_new_fdti fdt m).1 =
      ⟨(fdt_init_new_fdti fdt m).1, [⟨px, some py, vx⟩, ⟨py, some px, vy⟩], 0⟩ := by
    simp [schedulerPass, nodeReady, fdt_init_has_opaque, fdt_init_new_fdti]
  rw [drive_stall _ _ _ (by rw [hpass])]
  rw [hpass]
  simp

/-- C3: for every compatibility or instance table and every key under which
two or more bindings have been registered (b plus any duplicates in post),
lookup selects the first-registered binding whose key equals the argument,
and hence fdt_init_compat and fdt_init_inst_bind invoke exactly that
binding's initializer; lookup is a pure function of the table, so the
result is the same however many lookups are performed and in any order. -/
theorem c3_lookup_first_registered_wins (pre post : List Binding) (b : Binding) (k : String)
    (hb : b.key = k) (hpre : ∀ x ∈ pre, x.key ≠ k) :
    lookup_binding (registerCompatAll (pre ++ b :: post)) k = some b ∧
    lookup_binding (registerInstAll (pre ++ b :: post)) k = some b ∧
    (∀ node_path fdti, fdt_init_compat (registerCompatAll (pre ++ b :: post)) node_path fdti k =
      (DispatchResult.invoked (b.fn node_path fdti b.opaqueVal).1,
       (b.fn node_path fdti b.opaqueVal).2)) ∧
    (∀ node_path fdti, fdt_init_inst_bind (registerInstAll (pre ++ b :: post)) node_path fdti k =
      (DispatchResult.invoked (b.fn node_path fdti b.opaqueVal).1,
       (b.fn node_path fdti b.opaqueVal).2)) := by
  have hl : lookup_binding (pre ++ b :: post) k = some b :=
    find?_first_match pre post b k hb hpre
  refine ⟨by rw [registerCompatAll_eq]; exact hl, by rw [registerInstAll_eq]; exact hl, ?_, ?_⟩
  · intro node_path fdti
    rw [registerCompatAll_eq]
    simp [fdt_init_compat, hl]
  · intro node_path fdti
    rw [registerInstAll_eq]
    simp [fdt_init_inst_bind, hl]

def c3wFn : String → FDTMachineInfo → Nat → InitResult × FDTMachineInfo :=
  fun _ fdti _ => (InitResult.success, fdti)

def c3wB : Binding := ⟨"k", c3wFn, 1⟩

def c3wPre : List Binding := [⟨"other", c3wFn, 0⟩]

def c3wPost : List Binding := [⟨"k", c3wFn, 2⟩]

theorem c3_lookup_first_registered_wins_witness :
    lookup_binding (registerCompatAll (c3wPre ++ c3wB :: c3wPost)) "k" = some c3wB ∧
    lookup_binding (registerInstAll (c3wPre ++ c3wB :: c3wPost)) "k" = some c3wB :=
  ⟨(c3_lookup_first_registered_wins c3wPre c3wPost c3wB "k" rfl
      (by intro x hx; simp only [c3wPre, List.mem_singleton] at hx; subst hx; decide)).1,
   (c3_lookup_first_registered_wins c3wPre c3wPost c3wB "k" rfl
      (by intro x hx; simp only [c3wPre, List.mem_singleton] at hx; subst hx; decide)).2.1⟩

/-- C4: for every key with no matching binding in the table,
fdt_init_compat and fdt_init_inst_bind return notFound, invoke no
initializer, and return the MachineContext unchanged (every field,
including the opaque store and wait queue, since the whole structure is
returned as passed). -/
theorem c4_no_match_not_found (tbl : List Binding) (node_path : String)
    (fdti : FDTMachineInfo) (k : String) (h : ∀ x ∈ tbl, x.key ≠ k) :
    fdt_init_compat tbl node_path fdti k = (DispatchResult.notFound, fdti) ∧
    fdt_init_inst_bind tbl node_path fdti k = (DispatchResult.notFound, fdti) := by
  have hl : lookup_binding tbl k = none := by
    apply List.find?_eq_none.mpr
    intro x hx
    simpa using h x hx
  constructor <;> simp [fdt_init_compat, fdt_init_inst_bind, hl]

def c4wTbl : List Binding := [⟨"a", c3wFn, 0⟩]

def c4wCtx : FDTMachineInfo := ⟨0, [], [], 0, []⟩

theorem c4_no_match_not_found_witness :
    fdt_init_compat c4wTbl "np" c4wCtx "b" = (DispatchResult.notFound, c4wCtx) ∧
    fdt_init_inst_bind c4wTbl "np" c4wCtx "b" = (DispatchResult.notFound, c4wCtx) :=
  c4_no_match_not_found c4wTbl "np" c4wCtx "b"
    (by intro x hx; simp only [c4wTbl, List.mem_singleton] at hx; subst hx; decide)

/-- C5: within one MachineContext, a second set_opaque call for a path that
already has a stored value is flagged as a DuplicatePublish, and the value
stored by the first call is never altered by the second call. -/
theorem c5_set_opaque_write_once (fdti : FDTMachineInfo) (p : String) (v w : Nat)
    (h : fdt_init_has_opaque fdti p = false) :
    ( fdt_init_set_opaque ( fdt_init_set_opaque fdti p v).1 p w).2 = true ∧
    fdt_init_get_opaque ( fdt_init_set_opaque ( fdt_init_set_opaque fdti p v).1 p w).1 p =
      some v := by
  have h1 : ( fdt_init_set_opaque fdti p v).1 =
      { fdti with dev_opaques := ⟨p, v⟩ :: fdti.dev_opaques } := by
    simp [ fdt_init_set_opaque, h]
  have h2 : fdt_init_has_opaque { fdti with dev_opaques := ⟨p, v⟩ :: fdti.dev_opaques } p = true := by
    simp [ fdt_init_has_opaque]
  rw [h1]
  constructor
  · simp [ fdt_init_set_opaque, h2]
  · simp [ fdt_init_set_opaque, h2, fdt_init_get_opaque]

theorem c5_set_opaque_write_once_witness :
    fdt_init_has_opaque c4wCtx "n" = false ∧
    ( fdt_init_set_opaque ( fdt_init_set_opaque c4wCtx "n" 1).1 "n" 2).2 = true ∧
    fdt_init_get_opaque ( fdt_init_set_opaque ( fdt_init_set_opaque c4wCtx "n" 1).1 "n" 2).1 "n" =
      some 1 :=
  ⟨rfl, c5_set_opaque_write_once c4wCtx "n" 1 2 rfl⟩

/-- C6: fdt_force_bind_all invokes every force-table initializer exactly
once per machine-instantiation pass, in registration order (its invocation
log equals the registered table) and independent of document content (the
statement holds for every machine context); it continues invoking the
remaining entries past failures and reports the first failure, i.e. the
first non-success among the in-order results (none when all succeed). -/
theorem c6_force_bind_all_order_and_first_failure (bs : List ForceBinding)
    (fdti : FDTMachineInfo) :
    (fdt_force_bind_all (registerForceAll bs) fdti).2.2 = bs ∧
    (fdt_force_bind_all (registerForceAll bs) fdti).1 =
      ((forceResults bs fdti).filterMap id).head? := by
  rw [registerForceAll_eq]
  induction bs generalizing fdti with
  | nil => simp [fdt_force_bind_all, forceResults]
  | cons b rest ih =>
    obtain ⟨ih1, ih2⟩ := ih (b.fn fdti b.opaqueVal).2
    constructor
    · simp [fdt_force_bind_all, ih1]
    · cases hr : (b.fn fdti b.opaqueVal).1 with
      | none => simp [fdt_force_bind_all, forceResults, hr, ih2]
      | some e => simp [fdt_force_bind_all, forceResults, hr]

theorem c7_counterexample_new_fdti_leaves_mutex_locked :
    (fdt_init_new_fdti 0 MutexState.unlocked).2 ≠ MutexState.unlocked := by
  decide

/-- C7 (amended): creating a MachineContext allocates and zero-initializes
the context (empty opaque store and wait queue, zero sysbus base), leaving
the IRQ-base table empty for the caller to assign before use; but, as the
header documents, the mutex fdt_mutex is locked on return, so creation does
leave a lock held (the caller must later release it via destroy). -/
theorem c7_new_fdti_zero_initialized_and_locked (fdt : Nat) (m : MutexState) :
    (fdt_init_new_fdti fdt m).1 = ⟨fdt, [], [], 0, []⟩ ∧
    (fdt_init_new_fdti fdt m).2 = MutexState.locked :=
  ⟨rfl, rfl⟩

/-- C2: for a document with three nodes A, B, C where C's initializer
yields until B's opaque entry exists, B's initializer yields until A's
opaque entry exists, and A has no dependency, the fixed-point driving loop
(which re-attempts every parked node after each new opaque publication)
starting from a fresh machine context reaches global success with all three
opaque entries set, for every initial dispatch order of A, B, C. -/
theorem c2_chain_reaches_global_success (pa pb pc : String) (va vb vc : Nat)
    (hab : pa ≠ pb) (hbc : pb ≠ pc) (hac : pa ≠ pc)
    (l : List FDTNode) (fdt : Nat) (m : MutexState)
    (hl : l = [⟨pa, none, va⟩, ⟨pb, some pa, vb⟩, ⟨pc, some pb, vc⟩] ∨
          l = [⟨pa, none, va⟩, ⟨pc, some pb, vc⟩, ⟨pb, some pa, vb⟩] ∨
          l = [⟨pb, some pa, vb⟩, ⟨pa, none, va⟩, ⟨pc, some pb, vc⟩] ∨
          l = [⟨pb, some pa, vb⟩, ⟨pc, some pb, vc⟩, ⟨pa, none, va⟩] ∨
          l = [⟨pc, some pb, vc⟩, ⟨pa, none, va⟩, ⟨pb, some pa, vb⟩] ∨
          l = [⟨pc, some pb, vc⟩, ⟨pb, some pa, vb⟩, ⟨pa, none, va⟩]) :
    ∃ st, drive l (fdt_init_new_fdti fdt m).1 = DriveResult.success st ∧
      fdt_init_has_opaque st pa = true ∧
      fdt_init_has_opaque st pb = true ∧
      fdt_init_has_opaque st pc = true := by
  have h1 : (pa == pb) = false := beq_eq_false_iff_ne.mpr hab
  have h2 : (pb == pa) = false := beq_eq_false_iff_ne.mpr (Ne.symm hab)
  have h3 : (pb == pc) = false := beq_eq_false_iff_ne.mpr hbc
  have h4 : (pc == pb) = false := beq_eq_false_iff_ne.mpr (Ne.symm hbc)
  have h5 : (pa == pc) = false := beq_eq_false_iff_ne.mpr hac
  have h6 : (pc == pa) = false := beq_eq_false_iff_ne.mpr (Ne.symm hac)
  refine ⟨⟨fdt, [], [⟨pc, vc⟩, ⟨pb, vb⟩, ⟨pa, va⟩], 0, []⟩, ?_, ?_, ?_, ?_⟩
  rotate_left
  · simp [ fdt_init_has_opaque, h6, h2]
  · simp [ fdt_init_has_opaque, h4]
  · simp [ fdt_init_has_opaque]
  rcases hl with rfl | rfl | rfl | rfl | rfl | rfl <;>
    simp [drive, schedulerPass, nodeReady, publishNode, fdt_init_set_opaque,
      fdt_init_has_opaque, fdt_init_new_fdti, h1, h2, h3, h4, h5, h6]

theorem c2_chain_reaches_global_success_witness :
    (("A" : String) ≠ "B") ∧ (("B" : String) ≠ "C") ∧ (("A" : String) ≠ "C") ∧
    ∃ st, drive [⟨"C", some "B", 3⟩, ⟨"B", some "A", 2⟩, ⟨"A", none, 1⟩]
        (fdt_init_new_fdti 0 MutexState.unlocked).1 = DriveResult.success st ∧
      fdt_init_has_opaque st "A" = true ∧
      fdt_init_has_opaque st "B" = true ∧
      fdt_init_has_opaque st "C" = true :=
  ⟨by decide, by decide, by decide,
   c2_chain_reaches_global_success "A" "B" "C" 1 2 3 (by decide) (by decide) (by decide)
     [⟨"C", some "B", 3⟩, ⟨"B", some "A", 2⟩, ⟨"A", none, 1⟩] 0 MutexState.unlocked (by decide)⟩
